import Mathlib

/-!
Verification of the decision layer of the pokeagent-speedrun repository.

The Lean definitions below are shallow embeddings of the Python sources:
  * `Deprec` namespace: src/agent/deprecated/memory.py and
    src/agent/deprecated/planning.py (the goal tracker, the process-wide
    action queue, the memory update and the decision/validation logic).
  * `Percep` namespace: `_infer_scene_from_state` which is verbatim
    identical in src/agent/openai/perception.py and
    src/agent/deprecated/perception.py.
  * `OAI` namespace: src/agent/openai/memory.py and
    src/agent/openai/planning.py.

Modelling conventions:
  * Python dicts holding program state become structures; a field that the
    code may leave as `None` (or that Python truthiness treats as absent)
    becomes an `Option`.
  * The module-global action queue `_GLOBAL_PENDING` is threaded explicitly
    as a `List String`.
  * Code that can raise is embedded in `Except String`; a `try/except`
    around a call becomes a `match` on the result.
  * Python's `needle in haystack` on strings is `strContains`.
-/

/-- Python `needle in hay` for strings: `hay` contains `needle` as a
contiguous substring. -/
def strContains (hay needle : String) : Bool :=
  (List.range (hay.data.length + 1)).any
    (fun i => List.isPrefixOf needle.data (hay.data.drop i))

/-- Python `s.strip()` (whitespace stripped from both ends). -/
def pyStrip (s : String) : String :=
  String.mk (((s.data.dropWhile Char.isWhitespace).reverse.dropWhile
    Char.isWhitespace).reverse)

/-- Python `s.upper()` (per-character uppercasing; the tokens handled
here are ASCII). -/
def pyUpper (s : String) : String :=
  String.mk (s.data.map Char.toUpper)

/-- Python `s.lower()`. -/
def pyLower (s : String) : String :=
  String.mk (s.data.map Char.toLower)

/-- Helper for `pySplitComma`. -/
def pySplitCommaAux : List Char → List Char → List String
  | [], cur => [String.mk cur.reverse]
  | c :: rest, cur =>
    if c = ',' then String.mk cur.reverse :: pySplitCommaAux rest []
    else pySplitCommaAux rest (c :: cur)

/-- Python `s.split(",")`. -/
def pySplitComma (s : String) : List String :=
  pySplitCommaAux s.data []

/-- Helper for `pySplitWs`. -/
def pySplitWsAux : List Char → List Char → List String
  | [], cur => if cur.isEmpty then [] else [String.mk cur.reverse]
  | c :: rest, cur =>
    if c.isWhitespace then
      if cur.isEmpty then pySplitWsAux rest []
      else String.mk cur.reverse :: pySplitWsAux rest []
    else pySplitWsAux rest (c :: cur)

/-- Python `s.split()` (split on whitespace runs, no empty parts). -/
def pySplitWs (s : String) : List String :=
  pySplitWsAux s.data []

namespace Deprec

/-! ### src/agent/deprecated/memory.py -/

/-- `_ALLOWED_BTNS` (deprecated/memory.py line 11). -/
def _ALLOWED_BTNS : List String :=
  ["UP", "DOWN", "LEFT", "RIGHT", "A", "B", "START"]

/-- `_normalize_primitives` (deprecated/memory.py lines 13-23): each token
is `str(a).strip().upper()`-normalized, then kept only if it is in the
allowed alphabet. -/
def _normalize_primitives (actions : List String) : List String :=
  (actions.map (fun a => pyUpper (pyStrip a))).filter
    (fun s => _ALLOWED_BTNS.contains s)

/-- `MemoryModule.enqueue_actions` (deprecated/memory.py lines 56-63),
restricted to its effect on `_GLOBAL_PENDING`: normalized tokens are
appended at the tail (an empty normalization result appends nothing, which
is the same list). -/
def enqueue_actions (q : List String) (actions : List String) : List String :=
  q ++ _normalize_primitives actions

/-- `MemoryModule.pop_next_action` (deprecated/memory.py lines 65-72),
restricted to its effect on `_GLOBAL_PENDING` and its return value (the
mirror into `state["last_action"]` is handled in `MemState`-level code). -/
def pop_next_action (q : List String) : Option String × List String :=
  match q with
  | [] => (none, [])
  | a :: rest => (some a, rest)

/-- Repeatedly `pop_next_action` until the queue is empty, collecting the
returned tokens in order. -/
def drainQueue : List String → List String
  | [] => []
  | a :: rest => a :: drainQueue rest

/-- A goal dict of the long-term plan (see `DEFAULT_EMERALD_LT_PLAN`,
deprecated/planning.py lines 11-24). -/
structure Goal where
  id : String
  goal : String
  status : String
  completion_cues : List String
  movement_only : Bool
deriving Repr, DecidableEq

/-- The parts of `MemoryModule.state` and of the module's runtime flags
that the goal tracker and `update` read or write
(deprecated/memory.py lines 26-54). -/
structure MemState where
  location : Option String
  long_term_plan : List Goal
  current_goal : Option Goal
  last_action : Option String
  naming_handled : Bool
  set_clock_sequence_queued : Bool
  failed_movements : List ((Int × Int) × List String)
  last_coords : Option (Int × Int)
  entry_coords : List (String × (Int × Int))
deriving Repr, DecidableEq

/-- `MemoryModule.get_active_goal` (deprecated/memory.py lines 203-216):
returns the current goal if it is set; otherwise scans the plan for the
first `pending` goal, records it as current and returns it.  Returns the
goal together with the (possibly updated) state. -/
def get_active_goal (s : MemState) : Option Goal × MemState :=
  match s.current_goal with
  | some g => (some g, s)
  | none =>
    match s.long_term_plan.find? (fun g => g.status == "pending") with
    | some g => (some g, { s with current_goal := some g })
    | none => (none, s)

/-- Set the status of the goal at index `i` to "completed" (the Python
`g["status"] = "completed"` on the plan entry found by the loop). -/
def setCompletedAt : List Goal → Nat → List Goal
  | [], _ => []
  | g :: rest, 0 => { g with status := "completed" } :: rest
  | g :: rest, i + 1 => g :: setCompletedAt rest i

/-- Index of the first list entry satisfying `p` (the `for i, g in
enumerate(plan)` search). -/
def findIdxP (p : Goal → Bool) : List Goal → Option Nat
  | [] => none
  | g :: rest => if p g then some 0 else (findIdxP p rest).map (fun i => i + 1)

/-- `MemoryModule.complete_current_goal` (deprecated/memory.py lines
218-244).  It first calls `get_active_goal` (which may auto-activate a
pending goal); unless the returned goal's id equals `goal_id` it only warns
and returns.  Otherwise it marks the first plan entry with that id
completed and makes the next pending entry (scanning forward from there)
the current goal, or `none` when no pending entry remains. -/
def complete_current_goal (s0 : MemState) (goal_id : String) : MemState :=
  match get_active_goal s0 with
  | (none, s) => s
  | (some c, s) =>
    if c.id == goal_id then
      match findIdxP (fun g => g.id == goal_id) s.long_term_plan with
      | none => s
      | some i =>
        let plan := setCompletedAt s.long_term_plan i
        let next := (plan.drop (i + 1)).find? (fun g => g.status == "pending")
        { s with long_term_plan := plan, current_goal := next }
    else s

/-- Status changes one plan can make to another in a single tracker
operation: every entry is either untouched or its status is set to
"completed" (in particular, an entry that is already "completed" keeps
that status forever, and no other field ever changes). -/
def planStep (p p' : List Goal) : Prop :=
  p'.length = p.length ∧ ∀ k g, p.get? k = some g →
    p'.get? k = some g ∨ p'.get? k = some { g with status := "completed" }

/-- The fields of a scene-result observation that
`MemoryModule.update_goal_status` (deprecated/memory.py lines 247-355)
actually reads, after its own defensive extraction: the lower-cased
matching text built from `summary` and `key_elements`, the `scene_type`,
the lower-cased `str(player["location"])`, and the party size.  A non-dict
observation is handled by the caller-side normalization (a string becomes
`{"summary": s, ...}`, anything else returns immediately). -/
structure GoalObs where
  text : String
  scene_type : String
  loc : String
  party_count : Nat
deriving Repr, DecidableEq

/-- `MemoryModule.update_goal_status` (deprecated/memory.py lines 247-355):
per-goal completion predicates over the observation text, location and
party size; when one fires, `complete_current_goal` runs.  The
`set_bedroom_clock` and `return_downstairs` rules additionally consult the
runtime flag `_runtime_flags["set_clock_sequence_queued"]`. -/
def update_goal_status (s0 : MemState) (o : GoalObs) : MemState :=
  match get_active_goal s0 with
  | (none, s) => s
  | (some current, s) =>
    if current.id == "start_game" then
      if o.scene_type == "MAP" &&
          (strContains o.text "truck" || strContains o.text "moving box") then
        complete_current_goal s current.id
      else s
    else if current.id == "leave_the_truck" then
      if ["your room is upstairs", "player's house", "mom", "arrived"].any
          (fun c => strContains o.text c) then
        complete_current_goal s current.id
      else s
    else if current.id == "go_upstairs" then
      if strContains o.loc "2f" then complete_current_goal s current.id else s
    else if current.id == "player_bedroom_entered" then
      if strContains o.loc "2f" &&
          ["this is your room", "your bedroom", "nintendo gamecube", "clock"].any
            (fun c => strContains o.text c) then
        complete_current_goal s current.id
      else s
    else if current.id == "set_bedroom_clock" then
      if o.scene_type == "DIALOGUE" && s.set_clock_sequence_queued then
        complete_current_goal s current.id
      else if o.scene_type == "MAP" && s.set_clock_sequence_queued then
        complete_current_goal s current.id
      else s
    else if current.id == "return_downstairs" then
      if strContains o.loc "1f" && s.set_clock_sequence_queued then
        complete_current_goal s current.id
      else s
    else if current.id == "exit_player_house" then
      if strContains o.loc "littleroot town" && !(strContains o.loc "house") then
        complete_current_goal s current.id
      else s
    else if current.id == "go_to_birch_lab" then
      if strContains o.loc "lab" && strContains o.loc "birch" then
        complete_current_goal s current.id
      else s
    else if current.id == "find_route_101" then
      if strContains o.loc "route 101" || strContains o.loc "route101" then
        complete_current_goal s current.id
      else s
    else if current.id == "find_professor_birch" then
      if strContains o.text "professor" &&
          (strContains o.text "help" || strContains o.text "pokemon" ||
            strContains o.text "birch") then
        complete_current_goal s current.id
      else s
    else if current.id == "choose_starter" then
      if 1 ≤ o.party_count then complete_current_goal s current.id else s
    else s

/-- The fields of a raw observation that `MemoryModule.update`
(deprecated/memory.py lines 357-391) reads: `state.player.location`
(`none` when the nesting is broken or the value is falsy) and the
coordinates extracted by `_get_coords` (lines 393-404). -/
structure UpdObs where
  loc : Option String
  pos : Option (Int × Int)
deriving Repr, DecidableEq

/-- `MemoryModule.record_failed_movement` (deprecated/memory.py lines
169-180): append `direction` to the per-coordinate failure list unless it
is already recorded. -/
def record_failed_movement (fm : List ((Int × Int) × List String))
    (coords : Int × Int) (direction : String) : List ((Int × Int) × List String) :=
  match fm.find? (fun e => e.1 == coords) with
  | none => fm ++ [(coords, [direction])]
  | some e =>
    if e.2.contains direction then fm
    else fm.map (fun p => if p.1 == coords then (p.1, p.2 ++ [direction]) else p)

/-- `MemoryModule.update` (deprecated/memory.py lines 357-391) together
with its effect on the module-global queue `_GLOBAL_PENDING`: records the
last action, clears the queue and records entry coordinates when the
reported location differs from the stored one, stores the new location,
and tracks blocked movements by comparing coordinates across steps. -/
def update (s0 : MemState) (q0 : List String) (o : UpdObs)
    (last_action : Option String) : MemState × List String :=
  let s := match last_action with
    | some a => { s0 with last_action := some a }
    | none => s0
  let sq : MemState × List String :=
    match o.loc with
    | none => (s, q0)
    | some loc =>
      let cleared : MemState × List String :=
        match s.location with
        | some prev =>
          if prev ≠ loc then
            let q1 := if q0.isEmpty then q0 else []
            let s1 := match o.pos with
              | some coords =>
                { s with entry_coords := (loc, coords) :: s.entry_coords }
              | none => s
            (s1, q1)
          else (s, q0)
        | none => (s, q0)
      ({ cleared.1 with location := some loc }, cleared.2)
  let s := sq.1
  let s :=
    match last_action with
    | some a =>
      if ["UP", "DOWN", "LEFT", "RIGHT"].contains a then
        let s1 :=
          match s.last_coords, o.pos with
          | some prev, some cur =>
            if cur = prev then
              { s with failed_movements :=
                  record_failed_movement s.failed_movements cur a }
            else s
          | _, _ => s
        { s1 with last_coords := o.pos }
      else s
    | none => s
  (s, sq.2)

/-! ### src/agent/deprecated/planning.py -/

/-- Python `s.split()[0] if ' ' in s else s` (deprecated/planning.py line
890): the first whitespace-separated word of `s` when it contains a
space. -/
def firstWord (s : String) : String :=
  if strContains s " " then (pySplitWs s).headD "" else s

/-- The validation-and-override tail of `PlanningModule.decide`
(deprecated/planning.py lines 856-903).  Inputs are the oracle-proposed
`action`, the computed `walkable` list, the active goal id (`none` when no
goal dict is active), whether the goal is navigation-flavoured, the
recommended target direction extracted from `target_info` (`none` when
absent), and the goal's movement-only flag.  The result is the returned
`(action, reason)` pair; `("WAIT", ...)` models the two early wait
returns. -/
def decide_validate (action0 : String) (walkable : List String)
    (goal_id : Option String) (is_navigation_goal : Bool)
    (recommended_direction : Option String) (restrict_to_movement : Bool) :
    String × String :=
  -- HARD CONSTRAINT: go_upstairs only allows UP (lines 857-861);
  -- SOFT OVERRIDE toward the recommended target direction (lines 863-870).
  let action :=
    if goal_id == some "go_upstairs" then
      if action0 == "DOWN" || action0 == "A" then "UP" else action0
    else
      match recommended_direction with
      | some rd =>
        if is_navigation_goal && action0 ≠ rd then
          if action0 == "A" ||
              (["UP", "DOWN", "LEFT", "RIGHT"].contains action0 &&
                walkable.contains action0) then
            if walkable.isEmpty || walkable.contains rd then rd else action0
          else action0
        else action0
      | none => action0
  -- Final walkability check (lines 872-900).
  if ["UP", "DOWN", "LEFT", "RIGHT"].contains action then
    if !walkable.isEmpty && !walkable.contains action then
      match walkable with
      | w :: _ => (w, "validated_navigation")
      | [] =>
        if restrict_to_movement then ("WAIT", "no_walkable_movement_only_goal")
        else ("A", "validated_navigation")
    else (action, "validated_navigation")
  else
    let action_upper := pyStrip (pyUpper action)
    let base_action := firstWord action_upper
    if ["A", "B", "START", "SELECT"].contains base_action then
      if restrict_to_movement then
        match walkable with
        | w :: _ => (w, "validated_navigation")
        | [] => ("WAIT", "movement_required_but_blocked")
      else (action, "validated_navigation")
    else (action, "validated_navigation")

/-- The runtime flags and queue that the DIALOGUE/CUTSCENE handler of
`PlanningModule.decide` (deprecated/planning.py lines 442-468) reads and
writes: the dialogue streak counter, the previously seen scene type
(`rf["last_scene"]`), and the global action queue. -/
structure DlgState where
  dialogue_streak : Nat
  last_scene : Option String
  queue : List String
deriving Repr, DecidableEq

/-- The DIALOGUE/CUTSCENE branch of `PlanningModule.decide`
(deprecated/planning.py lines 442-468), for `scene_type` in
{DIALOGUE, CUTSCENE}: increment the streak, enqueue an A burst on first
entry, escalate to START at streak 60 and to B at streak 40, otherwise
drain one queued A if it is at the head, else press A.  Returns the
`(action, reason)` pair and the updated flags/queue. -/
def dialogue_decide (scene_type : String) (st : DlgState) :
    (String × String) × DlgState :=
  let streak := st.dialogue_streak + 1
  let q :=
    if !(st.last_scene == some "DIALOGUE" || st.last_scene == some "CUTSCENE") then
      enqueue_actions st.queue ["A", "A", "A", "A"]
    else st.queue
  if 60 ≤ streak then
    (("START", "dialogue_escalation_start"), ⟨streak, some scene_type, q⟩)
  else if 40 ≤ streak then
    (("B", "dialogue_escalation_b"), ⟨streak, some scene_type, q⟩)
  else
    match q with
    | "A" :: rest => (("A", "dialogue_queue"), ⟨streak, some scene_type, rest⟩)
    | _ => (("A", "dialogue"), ⟨streak, some scene_type, q⟩)

/-- The dialogue-handler state after `n` consecutive steps that are all
classified DIALOGUE. -/
def dialogueRun : Nat → DlgState → DlgState
  | 0, st => st
  | n + 1, st => dialogueRun n (dialogue_decide "DIALOGUE" st).2

end Deprec

namespace Percep

/-!
### `PerceptionModule._infer_scene_from_state`

The function is textually identical in src/agent/openai/perception.py
(lines 112-221) and src/agent/deprecated/perception.py (lines 112-208,
which only adds a debug print).  The structure below records, for each
leaf the code reads, the truthiness of that leaf (`bool(...)` of the raw
value); the map name is the first truthy candidate among
`obs["map"]["name"]`, `state["map_name"]` and `obs["location"]` (`none`
when all are falsy), and `px`/`py` are `none` exactly when the extracted
value is Python `None`.
-/

structure Obs where
  obs_title_screen : Bool
  state_is_title : Bool
  state_title : Bool
  battle_in_battle : Bool
  state_in_battle : Bool
  state_battle : Bool
  dialogue_open_flag : Bool
  state_dialogue_open : Bool
  obs_textbox_open : Bool
  state_textbox_open : Bool
  menu_open_flag : Bool
  state_menu_open : Bool
  state_in_menu : Bool
  obs_cutscene : Bool
  state_cutscene : Bool
  state_script_active : Bool
  map_name : Option String
  px : Option Int
  py : Option Int
  party_count : Nat
  opp_name : Option String
deriving Repr, DecidableEq

/-- `is_title` (perception.py lines 123-127). -/
def is_title (o : Obs) : Bool :=
  o.obs_title_screen || o.state_is_title || o.state_title

/-- `in_battle` (perception.py lines 128-132). -/
def in_battle (o : Obs) : Bool :=
  o.battle_in_battle || o.state_in_battle || o.state_battle

/-- `dialogue_open` (perception.py lines 133-138). -/
def dialogue_open (o : Obs) : Bool :=
  o.dialogue_open_flag || o.state_dialogue_open || o.obs_textbox_open ||
    o.state_textbox_open

/-- `menu_open` (perception.py lines 139-143). -/
def menu_open (o : Obs) : Bool :=
  o.menu_open_flag || o.state_menu_open || o.state_in_menu

/-- `cutscene` (perception.py lines 144-148). -/
def cutscene (o : Obs) : Bool :=
  o.obs_cutscene || o.state_cutscene || o.state_script_active

/-- A scene-classification result dict. -/
structure SceneResult where
  scene_type : String
  summary : String
  key_elements : String
deriving Repr, DecidableEq

/-- `PerceptionModule._infer_scene_from_state` (openai/perception.py lines
112-221): classify from structured flags in strict priority
title > battle > dialogue > menu > cutscene, then from map/coordinate
evidence, else UNKNOWN. -/
def _infer_scene_from_state (o : Obs) : SceneResult :=
  if is_title o then
    ⟨"TITLE", "Main menu visible.", "Screen=Title"⟩
  else if in_battle o then
    let summ := "Battle in progress" ++
      (match o.opp_name with
       | some n => " vs " ++ n
       | none => "")
    ⟨"BATTLE", summ, "Party=" ++ toString o.party_count⟩
  else if dialogue_open o then
    ⟨"DIALOGUE", "Dialogue textbox visible.", "Party=" ++ toString o.party_count⟩
  else if menu_open o then
    ⟨"MENU", "Menu open.", "Party=" ++ toString o.party_count⟩
  else if cutscene o then
    ⟨"CUTSCENE", "Scripted scene.", "Party=" ++ toString o.party_count⟩
  else if !dialogue_open o && !menu_open o && !cutscene o then
    if o.map_name.isSome || (o.px.isSome && o.py.isSome) then
      let loc := o.map_name.getD "Overworld"
      let pos :=
        match o.px, o.py with
        | some x, some y => "(" ++ toString x ++ "," ++ toString y ++ ")"
        | _, _ => ""
      ⟨"MAP", pyStrip (loc ++ " " ++ pos), "Party=" ++ toString o.party_count⟩
    else ⟨"UNKNOWN", "", ""⟩
  else ⟨"UNKNOWN", "", ""⟩

/-- The scene label demanded by the specification sentence: strict flag
priority title > battle > dialogue > menu > cutscene with no further
signal checked, then MAP on map-name or player-coordinate evidence, else
UNKNOWN.  (Stated from the spec's words, to be compared with the
embedding of the source.) -/
def claimSceneType (o : Obs) : String :=
  if is_title o then "TITLE"
  else if in_battle o then "BATTLE"
  else if dialogue_open o then "DIALOGUE"
  else if menu_open o then "MENU"
  else if cutscene o then "CUTSCENE"
  else if o.map_name.isSome || (o.px.isSome && o.py.isSome) then "MAP"
  else "UNKNOWN"

end Percep

namespace OAI

/-! ### src/agent/openai/memory.py -/

/-- A goal dict of `DEFAULT_EMERALD_LT_PLAN` (openai/planning.py lines
20-104). -/
structure OGoal where
  id : String
  goal : String
  status : String
  completion_cues : List String
deriving Repr, DecidableEq

/-- A Python value stored under `key_elements`: either a string or a
dict with string keys and values. -/
inductive KE where
  | kstr (s : String)
  | kdict (entries : List (String × String))
deriving Repr, DecidableEq

/-- Python `str(...)` of a `key_elements` value (dict repr with quoted
keys and values). -/
def pyStrKE : KE → String
  | .kstr s => s
  | .kdict entries =>
    "\x7b" ++
      String.intercalate ", "
        (entries.map (fun e => "'" ++ e.1 ++ "': '" ++ e.2 ++ "'")) ++
      "\x7d"

/-- Dict lookup returning the value for the first matching key. -/
def assocGet (l : List (String × String)) (k : String) : Option String :=
  (l.find? (fun e => e.1 == k)).map (fun e => e.2)

/-- The observation fields that `decide` and `update_goal_status`
(openai module) read.  `state_text` stands for the navigation-hint text
that `_build_navigation_context` renders from `observation["state"]`; it
only ever flows into the oracle's prompt. -/
structure ObsDict where
  scene_type : Option String
  summary : Option String
  key_elements : Option KE
  state_text : String
deriving Repr, DecidableEq

/-- An observation as passed to `update_goal_status`: a dict, or any
other value (carried as its `str(...)` rendering), which the function
normalizes to `{"summary": str(observation), "key_elements": ""}`
(openai/memory.py lines 466-467). -/
inductive PyObs where
  | dict (d : ObsDict)
  | nonDict (s : String)
deriving Repr, DecidableEq

/-- The parts of the openai `MemoryModule` state (openai/memory.py lines
45-65) and module globals that the embedded operations read or write. -/
structure OMemState where
  location : Option String
  long_term_plan : List OGoal
  current_goal : Option String
  party : Option Nat
  party_count : Option Nat
  map_id : Option String
  naming_handled : Bool
  globalPending : List String
  pending_actions : List String
  last_action : Option String
  last_move_dir : Option String
deriving Repr, DecidableEq

/-- `_normalize_primitives` (openai/memory.py lines 26-36); identical to
the deprecated module's function. -/
def _normalize_primitives (actions : List String) : List String :=
  (actions.map (fun a => pyUpper (pyStrip a))).filter
    (fun s => Deprec._ALLOWED_BTNS.contains s)

/-- `MemoryModule.enqueue_actions` (openai/memory.py lines 103-112):
append the normalized tokens to the global queue. -/
def enqueue_actions (m : OMemState) (actions : List String) : OMemState :=
  { m with globalPending := m.globalPending ++ _normalize_primitives actions }

/-- `MemoryModule.pop_next_action` (openai/memory.py lines 114-135): pop
from the global queue first, then from the instance queue, mirroring the
popped token into `last_action` (and `last_move_dir` for directions). -/
def pop_next_action (m : OMemState) : Option String × OMemState :=
  match m.globalPending with
  | a :: rest =>
    let m1 := { m with globalPending := rest, last_action := some a }
    let m2 := if ["UP", "DOWN", "LEFT", "RIGHT"].contains a then
        { m1 with last_move_dir := some a }
      else m1
    (some a, m2)
  | [] =>
    match m.pending_actions with
    | a :: rest =>
      let m1 := { m with pending_actions := rest, last_action := some a }
      let m2 := if ["UP", "DOWN", "LEFT", "RIGHT"].contains a then
          { m1 with last_move_dir := some a }
        else m1
      (some a, m2)
    | [] => (none, m)

/-- First index/goal with a property, counting from the list head. -/
def findIdxGoal (p : OGoal → Bool) : List OGoal → Option (Nat × OGoal)
  | [] => none
  | g :: rest =>
    if p g then some (0, g)
    else (findIdxGoal p rest).map (fun x => (x.1 + 1, x.2))

/-- `get_active_goal` (openai/memory.py lines 445-450): the first goal of
the long-term plan whose status is not "completed"; no state change. -/
def get_active_goal (m : OMemState) : Option OGoal :=
  m.long_term_plan.find? (fun g => g.status ≠ "completed")

/-- `mark_in_lt_plan` (openai/memory.py lines 452-458): mark the first
plan entry with the given id completed. -/
def mark_in_lt_plan : List OGoal → String → List OGoal
  | [], _ => []
  | g :: rest, gid =>
    if g.id == gid then { g with status := "completed" } :: rest
    else g :: mark_in_lt_plan rest gid

/-- The completion side effect shared by every rule of
`update_goal_status`: `current["status"] = "completed"` (the plan entry
at `idx`, which `get_active_goal` aliases), `mark_in_lt_plan(goal_id)`,
and `state["current_goal"] = None`. -/
def completeActive (s : OMemState) (idx : Nat) (goal_id : String) : OMemState :=
  let plan := s.long_term_plan.mapIdx
    (fun k g => if k = idx then { g with status := "completed" } else g)
  { s with long_term_plan := mark_in_lt_plan plan goal_id, current_goal := none }

/-- `update_goal_status` (openai/memory.py lines 460-664).  The result is
`Except`: the `littleroot_town_explore` rule (line 643) evaluates
`("littleroot_town", "outside_littleroot", "littleroot") in loc` with
`loc` a `str`, which raises `TypeError` in Python before anything else in
that rule is evaluated (no state was mutated on the path to it); every
other path returns normally. -/
def update_goal_status (s : OMemState) (observation : PyObs) :
    Except String OMemState :=
  let obs : ObsDict := match observation with
    | .dict d => d
    | .nonDict str => ⟨none, some str, some (.kstr ""), ""⟩
  let text := pyLower
    ((obs.summary.getD "") ++ " " ++
      (match obs.key_elements with
       | some ke => pyStrKE ke
       | none => ""))
  let loc := pyLower (s.location.getD "")
  let mem_ke : List (String × String) :=
    match obs.key_elements with
    | some (.kdict d) => d
    | _ => []
  let obs_loc := pyLower ((assocGet mem_ke "Location").getD "")
  let party_count : Nat :=
    match s.party with
    | some n => n
    | none => s.party_count.getD 0
  let map_id_str := match s.map_id with
    | some v => v
    | none => "None"
  match findIdxGoal (fun g => g.status ≠ "completed") s.long_term_plan with
  | none => .ok s
  | some (idx, current) =>
    let goal_id := current.id
    let scene_type := obs.scene_type.getD ""
    let fallbackCues : Except String OMemState :=
      match current.completion_cues.find?
          (fun cue => cue ≠ "" && strContains text (pyLower cue)) with
      | some _ => .ok (completeActive s idx goal_id)
      | none => .ok s
    if goal_id == "start_game" then
      if scene_type == "MAP" then
        if ["your very own adventure", "well, i'll be expecting you later",
            "come see me"].any (fun p => strContains text p) then
          .ok (completeActive s idx goal_id)
        else if strContains text "box" || strContains text "truck" ||
            strContains text "storage" then
          .ok (completeActive s idx goal_id)
        else .ok s
      else .ok s
    else if goal_id == "leave_the_truck" then
      if ["your room is upstairs", "player's house", "mom", "welcome home",
          "arrived at your new home", "downstairs"].any
            (fun c => strContains text c) then
        .ok (completeActive s idx goal_id)
      else fallbackCues
    else if goal_id == "boot_intro" then
      if strContains loc "house" || strContains text "room is upstairs" ||
          strContains text "your room is upstairs" then
        .ok (completeActive s idx goal_id)
      else fallbackCues
    else if goal_id == "house_downstairs_free" then
      if strContains loc "house" || strContains loc "1f" ||
          strContains text "downstairs" then
        .ok (completeActive s idx goal_id)
      else fallbackCues
    else if goal_id == "go_upstairs" then
      if ["2f", "player_house_2f", "player house 2f", "player's house 2f"].any
          (fun c => strContains loc c || strContains obs_loc c) then
        .ok (completeActive s idx goal_id)
      else .ok s
    else if goal_id == "player_bedroom_entered" then
      if strContains text "this is your room" ||
          strContains text "this is your bedroom" ||
          strContains text "nintendo gamecube" then
        .ok (completeActive s idx goal_id)
      else fallbackCues
    else if goal_id == "set_bedroom_clock" then
      if strContains text "set the time" || strContains text "set the clock" ||
          strContains text "better set it" || strContains text "clock is set" then
        .ok (completeActive s idx goal_id)
      else fallbackCues
    else if goal_id == "return_downstairs" then
      if strContains loc "1f" || strContains text "downstairs" ||
          (strContains loc "house" && !(strContains loc "2f")) then
        .ok (completeActive s idx goal_id)
      else fallbackCues
    else if goal_id == "exit_player_house" then
      if strContains loc "littleroot" || strContains text "outside" ||
          strContains text "route 101" then
        .ok (completeActive s idx goal_id)
      else fallbackCues
    else if goal_id == "choose_starter" then
      if 1 ≤ party_count then .ok (completeActive s idx goal_id)
      else fallbackCues
    else if goal_id == "littleroot_town_explore" then
      .error
        "TypeError: in <string> requires string as left operand, not tuple"
    else if goal_id == "route_101" then
      if strContains loc "route 101" || strContains obs_loc "route 101" ||
          map_id_str == "3" then
        .ok (completeActive s idx goal_id)
      else fallbackCues
    else fallbackCues

/-! ### src/agent/openai/planning.py -/

/-- Digits of a decimal numeral to a `Nat` (Python `int` on a `\d+`
match). -/
def natOfDigits (ds : List Char) : Nat :=
  ds.foldl (fun n c => n * 10 + (c.toNat - 48)) 0

/-- One attempt of the regex `MOVE\s+(UP|DOWN|LEFT|RIGHT)\s+(\d+)` at the
head of `cs` (alternatives tried left to right, as the regex engine
does). -/
def parseMoveHere (cs : List Char) : Option (String × Nat) :=
  if "MOVE".data.isPrefixOf cs then
    let cs := cs.drop 4
    let ws := cs.takeWhile Char.isWhitespace
    if ws.isEmpty then none
    else
      let cs := cs.dropWhile Char.isWhitespace
      (["UP", "DOWN", "LEFT", "RIGHT"].filterMap (fun d =>
        if d.data.isPrefixOf cs then
          let cs := cs.drop d.length
          let ws2 := cs.takeWhile Char.isWhitespace
          if ws2.isEmpty then none
          else
            let cs := cs.dropWhile Char.isWhitespace
            let digits := cs.takeWhile Char.isDigit
            if digits.isEmpty then none
            else some (d, natOfDigits digits)
        else none)).head?
  else none

/-- `re.search` of the MOVE pattern: first position where it matches. -/
def searchMoveAux : List Char → Option (String × Nat)
  | [] => none
  | c :: rest =>
    match parseMoveHere (c :: rest) with
    | some r => some r
    | none => searchMoveAux rest

/-- `re.search(r"MOVE\s+(UP|DOWN|LEFT|RIGHT)\s+(\d+)", s)` returning the
two groups. -/
def searchMove (s : String) : Option (String × Nat) :=
  searchMoveAux s.data

/-- Helper for `upperRuns`: accumulate the current run of A-Z
characters. -/
def upperRunsAux : List Char → List Char → List String
  | [], cur => if cur.isEmpty then [] else [String.mk cur.reverse]
  | c :: rest, cur =>
    if 'A' ≤ c && c ≤ 'Z' then upperRunsAux rest (c :: cur)
    else if cur.isEmpty then upperRunsAux rest []
    else String.mk cur.reverse :: upperRunsAux rest []

/-- `re.findall(r"[A-Z]+", s)`: the maximal runs of capital letters. -/
def upperRuns (s : String) : List String :=
  upperRunsAux s.data []

/-- Membership in the character class `[A-Z0-9\s,]`. -/
def inActionClass (c : Char) : Bool :=
  ('A' ≤ c && c ≤ 'Z') || ('0' ≤ c && c ≤ '9') || c.isWhitespace || c == ','

/-- `re.search(r"ACTION:\s*([A-Z0-9\s,]+)", s)` followed by
`.group(1).strip()`: at the first position where `ACTION:` is followed by
at least one class character, the maximal class run after it,
stripped. -/
def searchActionGroupAux : List Char → Option String
  | [] => none
  | c :: rest =>
    if "ACTION:".data.isPrefixOf (c :: rest) then
      let tail := (c :: rest).drop 7
      let run := tail.takeWhile inActionClass
      if run.isEmpty then searchActionGroupAux rest
      else some (pyStrip (String.mk run))
    else searchActionGroupAux rest

/-- See `searchActionGroupAux`. -/
def searchActionGroup (s : String) : Option String :=
  searchActionGroupAux s.data

/-- A decision dict returned by `decide`; `reason` is `none` where the
code returns `{"action": ...}` without a reason key. -/
structure Decision where
  action : String
  reason : Option String
deriving Repr, DecidableEq

/-- The `PlanningModule` instance state: the decision cache
`context_cache` (keyed by context hash) and the shadow queue
`_PENDING_SHADOW` (openai/planning.py lines 110-113). -/
structure PMState where
  context_cache : List (String × Decision)
  pending_shadow : List String
deriving Repr, DecidableEq

/-- The sorted keys of the openai `MemoryModule.state` dict as
initialized (openai/memory.py lines 45-63), rendered as Python renders
the list in an f-string. -/
def memKeysRepr : String :=
  "[" ++ String.intercalate ", "
    ((["badges", "blockers", "boot_burst_done", "current_goal",
       "exploration", "last_action", "last_ascii_map", "last_location",
       "last_move_dir", "last_seen_scene", "location", "long_term_plan",
       "pending_actions", "progress", "short_term_plan", "team"]).map
      (fun k => "'" ++ k ++ "'")) ++ "]"

/-- `PlanningModule._hash_context` (openai/planning.py lines 115-151) for
a dict observation: the key `f"{scene_type}|{summary}|{active_goal_id}|
{mem_keys}"`.  The SHA-1 digest of the key is modeled by the key itself
(the digest is used only as a cache lookup token, so any injective stand-in
preserves the cache's behavior; here the cache is in fact never written,
so the stand-in is immaterial). -/
def _hash_context (obs : ObsDict) (mem : OMemState) : String :=
  let scene_type := obs.scene_type.getD ""
  let summary := obs.summary.getD ""
  let active_goal_id :=
    match get_active_goal mem with
    | some g => g.id
    | none => "no_goal"
  scene_type ++ "|" ++ summary ++ "|" ++ active_goal_id ++ "|" ++ memKeysRepr

/-- First line of `PLANNING_PROMPT` (system_prompt.py line 97-...); the
constant only ever flows into the oracle's prompt, so the remainder of
the literal is elided. -/
def PLANNING_PROMPT : String :=
  "Choose the single most efficient next step toward goal progress based on the latest observation and memory."

/-- Stand-in for `json.dumps(observation, indent=2)` in the prompt
(prompt text only). -/
def reprObs (obs : ObsDict) : String :=
  "scene_type: " ++ obs.scene_type.getD "null" ++ "; summary: " ++
    obs.summary.getD "null" ++ "; state: " ++ obs.state_text

/-- Stand-in for the joined `state_hints` of
`_build_navigation_context` (openai/planning.py lines 169-304): the
rendered map/walkability hints (carried as `obs.state_text`) followed by
the GOAL line.  The rendering only ever flows into the oracle's
prompt. -/
def build_navigation_context (obs : ObsDict) (goal_name goal_id : String) :
    String :=
  obs.state_text ++ "\nGOAL: " ++ goal_name ++ " (ID=" ++ goal_id ++ ")"

/-- The result of one `decide` call: the returned decision, the memory
and planning-module state after the call, and how many oracle
(`vlm.get_text_query`) calls were made. -/
structure DecideResult where
  decision : Decision
  mem : OMemState
  pm : PMState
  oracle_calls : Nat
deriving Repr, DecidableEq

/-- `PlanningModule.decide` (openai/planning.py lines 306-548) for a dict
observation.  `oracle` is `vlm.get_text_query` and `pick` is
`random.choice`. -/
def decide (oracle : String → String) (pick : List String → String)
    (obs : ObsDict) (mem0 : OMemState) (pm0 : PMState) : DecideResult :=
  let scene_type := obs.scene_type.getD "UNKNOWN"
  let summary := obs.summary.getD ""
  let ctx_hash := _hash_context obs mem0
  match (pm0.context_cache.find? (fun e => e.1 == ctx_hash)).map (fun e => e.2) with
  | some cached => ⟨cached, mem0, pm0, 0⟩
  | none =>
    -- FIX 4: update goal status before planning (wrapped in try/except;
    -- on the caught TypeError no mutation has happened, see
    -- `update_goal_status`).
    let mem := match update_goal_status mem0 (.dict obs) with
      | .ok m => m
      | .error _ => mem0
    let summary_lower := pyLower summary
    let key_elements : List (String × String) :=
      match obs.key_elements with
      | some (.kdict d) => d
      | _ => []
    -- A) queued actions
    let popped := pop_next_action mem
    match popped.1 with
    | some nxt => ⟨⟨nxt, some "queued"⟩, popped.2, pm0, 0⟩
    | none =>
      let mem := popped.2
      match pm0.pending_shadow with
      | a :: rest => ⟨⟨a, some "shadow_queue"⟩, mem, { pm0 with pending_shadow := rest }, 0⟩
      | [] =>
        let pm := pm0
        -- B) title screen
        if scene_type == "TITLE" then
          ⟨⟨"A", some "title_screen"⟩,
            enqueue_actions mem ["A", "A", "A", "A", "A", "A", "A", "A", "A"],
            pm, 0⟩
        -- C) battle
        else if scene_type == "BATTLE" then
          ⟨⟨"A", some "autoA_battle"⟩, mem, pm, 0⟩
        else
          -- D) menu / naming fastpath
          let ke_str := pyLower (pyStrKE (.kdict key_elements))
          let summary_has_name := ["name", "enter", "keyboard", "character",
            "nickname", "input"].any (fun k => strContains summary_lower k)
          let has_naming_keys := ["name", "keyboard", "input", "naming",
            "nickname", "character"].any (fun k => strContains ke_str k)
          if scene_type == "MENU" && !mem.naming_handled &&
              (summary_has_name || has_naming_keys) then
            ⟨⟨"START", some "naming_completion"⟩,
              enqueue_actions { mem with naming_handled := true }
                ["A", "A", "A", "START"],
              pm, 0⟩
          else
            -- E) dialogue / cutscene detection
            let st_upper := pyUpper (if scene_type == "" then "UNKNOWN" else scene_type)
            let is_dialog_like :=
              st_upper == "DIALOGUE" || st_upper == "CUTSCENE" ||
                (["dialogue box", "dialog box", "speech bubble", "text box",
                  "message box", "conversation", "talking", "is speaking",
                  "is saying"].any (fun k => strContains summary_lower k)) ||
                (["dialogue_box", "speech_bubble", "text_box"].any
                  (fun k => strContains ke_str k))
            if is_dialog_like then
              ⟨⟨"A", some "autoA_dialogue_or_cutscene"⟩, mem, pm, 0⟩
            else
              -- F) recover goal
              let active_goal := get_active_goal mem
              let goal_name := match active_goal with
                | some g => if g.goal ≠ "" then g.goal else "Progress the game"
                | none => "Progress the game"
              let goal_id := match active_goal with
                | some g => if g.id ≠ "" then g.id else "no_goal"
                | none => "no_goal"
              -- G) navigation hints (prompt text only)
              let extra := build_navigation_context obs goal_name goal_id
              -- H) truck / storage exit heuristic
              if strContains summary_lower "truck" ||
                  (strContains summary_lower "box" &&
                    strContains summary_lower "storage") then
                if goal_id == "leave_the_truck" || goal_id == "start_game" then
                  ⟨⟨"RIGHT", some "truck_exit"⟩, mem, pm, 0⟩
                else
                  ⟨⟨pick ["RIGHT", "RIGHT", "DOWN", "LEFT"],
                    some "truck_explore"⟩, mem, pm, 0⟩
              else
                -- I) prompt + oracle call
                let goal_text := match get_active_goal mem with
                  | some g => "CURRENT GOAL: " ++ g.goal
                  | none => ""
                let prompt := goal_text ++ "\n" ++ "Observation:\n" ++
                  reprObs obs ++ "\n" ++ "State Hints:\n" ++ extra ++ "\n" ++
                  PLANNING_PROMPT ++ "\n"
                let out := oracle prompt
                let txt := pyStrip (pyUpper out)
                let txt := match searchActionGroup txt with
                  | some g => g
                  | none => txt
                -- comma-separated multi-action sequences
                let step :=
                  if strContains txt "," then
                    let parts := (pySplitComma txt).map pyStrip
                    let queued :=
                      if 1 < parts.length then
                        (parts.drop 1).foldl (fun acc p =>
                          match searchMove p with
                          | some dn =>
                            acc ++ List.replicate (max 1 (min 3 dn.2)) dn.1
                          | none =>
                            match (upperRuns p).find? (fun t =>
                                Deprec._ALLOWED_BTNS.contains t) with
                            | some t => acc ++ [t]
                            | none => acc) []
                      else []
                    let mem := if queued.isEmpty then mem
                      else enqueue_actions mem queued
                    (parts.headD "", mem)
                  else (txt, mem)
                let txt := step.1
                let mem := step.2
                match searchMove txt with
                | some dn =>
                  let n := max 1 (min 3 dn.2)
                  let mem := if 1 < n then
                      enqueue_actions mem (List.replicate (n - 1) dn.1)
                    else mem
                  ⟨⟨dn.1, none⟩, mem, pm, 1⟩
                | none =>
                  match (upperRuns txt).find? (fun t =>
                      Deprec._ALLOWED_BTNS.contains t) with
                  | some t =>
                    if scene_type == "MAP" && t == "A" then
                      ⟨⟨pick ["UP", "DOWN", "LEFT", "RIGHT"], none⟩, mem, pm, 1⟩
                    else ⟨⟨t, none⟩, mem, pm, 1⟩
                  | none =>
                    ⟨⟨if scene_type == "MAP" then
                        pick ["UP", "DOWN", "LEFT", "RIGHT"]
                      else "A", none⟩, mem, pm, 1⟩

end OAI

/-- Observation for the C6 run of `OAI.decide`: a MAP scene reaching the
oracle path. -/
def c6_obs : OAI.ObsDict := ⟨some "MAP", some "Standing in a field", none, "mapinfo"⟩

/-- Memory state for the C6 run: empty queues, empty plan. -/
def c6_mem : OAI.OMemState :=
  ⟨some "loc", [], none, none, none, none, true, [], [], none, none⟩

/-- First `decide` call of the C6 run (oracle constantly answers UP). -/
def c6_r1 : OAI.DecideResult :=
  OAI.decide (fun _ => "UP") (fun l => l.headD "A") c6_obs c6_mem ⟨[], []⟩

/-- Second `decide` call of the C6 run, on the state left by the first. -/
def c6_r2 : OAI.DecideResult :=
  OAI.decide (fun _ => "UP") (fun l => l.headD "A") c6_obs c6_r1.mem c6_r1.pm

/-!
## Theorems

One theorem (plus witness / counterexample where applicable) per claim
of the specification.
-/

/-- Popping until empty returns exactly the queued tokens in order. -/
theorem drainQueue_eq (q : List String) : Deprec.drainQueue q = q := by
  induction q with
  | nil => rfl
  | cons a t ih => simpa [Deprec.drainQueue] using ih

/-- Folding `enqueue_actions` over batches appends the normalized
batches in order. -/
theorem foldl_enqueue (batches : List (List String)) (q : List String) :
    batches.foldl Deprec.enqueue_actions q =
      q ++ (batches.map Deprec._normalize_primitives).flatten := by
  induction batches generalizing q with
  | nil => simp
  | cons b t ih => simp [Deprec.enqueue_actions, ih, List.append_assoc]

/-- C3, counterexample.  The token "b" is outside the allowed alphabet,
so by the claim it should be dropped at enqueue time and never appear in
a pop result; but enqueueing it and draining the queue pops "B" (the
queue normalizes tokens by strip+uppercase before filtering), which is
not the claimed filter of the enqueued tokens. -/
theorem C3_counterexample :
    Deprec._ALLOWED_BTNS.contains "b" = false ∧
    Deprec.drainQueue (Deprec.enqueue_actions [] ["b"]) = ["B"] ∧
    ("b" :: []).filter (fun t => Deprec._ALLOWED_BTNS.contains t) = [] := by
  exact ⟨rfl, rfl, rfl⟩

/-- C3, amended.  For any sequence of `enqueue_actions` calls followed by
pops until empty, the popped tokens are exactly the enqueued tokens after
normalization (strip + uppercase) that lie in the allowed alphabet, in
FIFO order, and every popped token is in the allowed alphabet. -/
theorem C3_queue_fifo_normalized (batches : List (List String)) :
    Deprec.drainQueue (batches.foldl Deprec.enqueue_actions []) =
      (batches.map Deprec._normalize_primitives).flatten ∧
    ∀ t ∈ Deprec.drainQueue (batches.foldl Deprec.enqueue_actions []),
      Deprec._ALLOWED_BTNS.contains t = true := by
  constructor
  · rw [drainQueue_eq, foldl_enqueue]
    simp
  · intro t ht
    rw [drainQueue_eq, foldl_enqueue] at ht
    simp only [List.nil_append, List.mem_flatten, List.mem_map] at ht
    obtain ⟨l, ⟨b, _, rfl⟩, htl⟩ := ht
    exact (List.mem_filter.mp htl).2

/-- C3, witness for the amended theorem at a concrete batch list. -/
theorem C3_queue_fifo_normalized_witness :
    Deprec.drainQueue ([["up", "b"], ["xyz", "A"]].foldl Deprec.enqueue_actions []) =
      ([["up", "b"], ["xyz", "A"]].map Deprec._normalize_primitives).flatten ∧
    Deprec._ALLOWED_BTNS.contains "UP" = true := by
  refine ⟨(C3_queue_fifo_normalized [["up", "b"], ["xyz", "A"]]).1,
    (C3_queue_fifo_normalized [["up", "b"], ["xyz", "A"]]).2 "UP" ?_⟩
  rw [drainQueue_eq, foldl_enqueue]
  decide

/-- C2, counterexample.  In a tracker state with no active goal and a
single pending goal "y", calling `complete_current_goal "y"` — where "y"
is not the id of any currently active goal, since none is active —
completes goal "y" instead of being a no-op: `get_active_goal`
auto-activates "y" first, so the identity guard passes. -/
theorem C2_counterexample :
    (Deprec.MemState.current_goal
        ⟨none, [⟨"y", "goal y", "pending", [], false⟩], none, none,
          false, false, [], none, []⟩ = none) ∧
    (Deprec.complete_current_goal
        ⟨none, [⟨"y", "goal y", "pending", [], false⟩], none, none,
          false, false, [], none, []⟩ "y").long_term_plan =
      [⟨"y", "goal y", "completed", [], false⟩] := by
  exact ⟨rfl, rfl⟩

/-- C2, amended.  When a goal is currently active (the active-goal
pointer holds a goal dict) and `y` differs from its id,
`complete_current_goal y` is a no-op: the entire tracker state — goal
list, every status, and the active-goal pointer — is unchanged. -/
theorem C2_complete_nonactive_noop (s : Deprec.MemState) (c : Deprec.Goal)
    (y : String) (hc : s.current_goal = some c) (hne : c.id ≠ y) :
    Deprec.complete_current_goal s y = s := by
  unfold Deprec.complete_current_goal Deprec.get_active_goal
  rw [hc]
  simp [hne]

/-- C2, witness: the amended theorem at a concrete state. -/
theorem C2_complete_nonactive_noop_witness :
    Deprec.complete_current_goal
      ⟨none, [], some ⟨"x", "goal x", "pending", [], false⟩, none,
        false, false, [], none, []⟩ "y" =
    ⟨none, [], some ⟨"x", "goal x", "pending", [], false⟩, none,
      false, false, [], none, []⟩ := by
  exact C2_complete_nonactive_noop _ ⟨"x", "goal x", "pending", [], false⟩ "y"
    rfl (by decide)

/-- C8: `get_active_goal` is idempotent — a second call without any
intervening state change returns the same goal and the same state; when
no goal is active it returns (and records as current) the first pending
goal in list order; and the openai variant is the stateless first
not-completed scan, so repeated calls trivially agree. -/
theorem C8_get_active_goal_idempotent :
    (∀ s : Deprec.MemState,
      Deprec.get_active_goal (Deprec.get_active_goal s).2 =
        Deprec.get_active_goal s) ∧
    (∀ s : Deprec.MemState, s.current_goal = none →
      (Deprec.get_active_goal s).1 =
        s.long_term_plan.find? (fun g => g.status == "pending") ∧
      (Deprec.get_active_goal s).2.current_goal =
        (Deprec.get_active_goal s).1) ∧
    (∀ m : OAI.OMemState,
      OAI.get_active_goal m =
        m.long_term_plan.find? (fun g => g.status ≠ "completed")) := by
  refine ⟨?_, ?_, fun m => rfl⟩
  · intro s
    unfold Deprec.get_active_goal
    match h : s.current_goal with
    | some g => simp [h]
    | none =>
      simp only [h]
      match hf : s.long_term_plan.find? (fun g => g.status == "pending") with
      | some g => simp [hf]
      | none => simp [hf, h]
  · intro s h
    unfold Deprec.get_active_goal
    simp only [h]
    match hf : s.long_term_plan.find? (fun g => g.status == "pending") with
    | some g => simp [hf]
    | none => simp [hf, h]

/-- C8, witness: the idempotence and auto-activation facts at a concrete
state with one pending goal and no active goal. -/
theorem C8_get_active_goal_idempotent_witness :
    (Deprec.get_active_goal
      ⟨none, [⟨"x", "goal x", "pending", [], false⟩], none, none,
        false, false, [], none, []⟩).1 =
      ([⟨"x", "goal x", "pending", [], false⟩] :
        List Deprec.Goal).find? (fun g => g.status == "pending") := by
  exact (C8_get_active_goal_idempotent.2.1
    ⟨none, [⟨"x", "goal x", "pending", [], false⟩], none, none,
      false, false, [], none, []⟩ rfl).1

/-- `update` stores the reported location when one is present. -/
theorem update_location (s : Deprec.MemState) (q : List String)
    (o : Deprec.UpdObs) (a : Option String) (l : String) (h : o.loc = some l) :
    (Deprec.update s q o a).1.location = some l := by
  unfold Deprec.update
  rcases a with _ | a <;> simp only [h] <;> (repeat' split) <;> simp

/-- `update` clears the global queue when the reported location differs
from the stored one. -/
theorem update_queue_after_change (s : Deprec.MemState) (q : List String)
    (o : Deprec.UpdObs) (a : Option String) (l p : String)
    (h : o.loc = some l) (hp : s.location = some p) (hne : p ≠ l) :
    (Deprec.update s q o a).2 = [] := by
  unfold Deprec.update
  rcases a with _ | a <;> simp only [h, hp] <;> (repeat' split) <;> simp_all

/-- C4: given a non-empty action queue and two consecutive `update` calls
whose observations report different (present) player locations, the
queue is empty immediately after the second update, and a subsequent pop
returns nothing. -/
theorem C4_map_change_clears_queue (s : Deprec.MemState) (q : List String)
    (o1 o2 : Deprec.UpdObs) (a1 a2 : Option String) (l1 l2 : String)
    (hq : q ≠ []) (h1 : o1.loc = some l1) (h2 : o2.loc = some l2)
    (hne : l1 ≠ l2) :
    (Deprec.update (Deprec.update s q o1 a1).1
        (Deprec.update s q o1 a1).2 o2 a2).2 = [] ∧
    Deprec.pop_next_action
      (Deprec.update (Deprec.update s q o1 a1).1
        (Deprec.update s q o1 a1).2 o2 a2).2 = (none, []) := by
  have hloc := update_location s q o1 a1 l1 h1
  have hclr := update_queue_after_change (Deprec.update s q o1 a1).1
    (Deprec.update s q o1 a1).2 o2 a2 l2 l1 h2 hloc hne
  exact ⟨hclr, by rw [hclr]; rfl⟩

/-- C4, witness: concrete two-step run with a location change. -/
theorem C4_map_change_clears_queue_witness :
    (Deprec.update
      (Deprec.update
        ⟨none, [], none, none, false, false, [], none, []⟩
        ["UP", "A"] ⟨some "littleroot town", some (1, 2)⟩ none).1
      (Deprec.update
        ⟨none, [], none, none, false, false, [], none, []⟩
        ["UP", "A"] ⟨some "littleroot town", some (1, 2)⟩ none).2
      ⟨some "route 101", some (3, 4)⟩ none).2 = [] := by
  exact (C4_map_change_clears_queue
    ⟨none, [], none, none, false, false, [], none, []⟩ ["UP", "A"]
    ⟨some "littleroot town", some (1, 2)⟩ ⟨some "route 101", some (3, 4)⟩
    none none "littleroot town" "route 101"
    (by decide) rfl rfl (by decide)).1

/-- Each dialogue-handler step increments the streak counter by one. -/
theorem dialogue_streak_step (sc : String) (st : Deprec.DlgState) :
    (Deprec.dialogue_decide sc st).2.dialogue_streak = st.dialogue_streak + 1 := by
  unfold Deprec.dialogue_decide
  by_cases h60 : 60 ≤ st.dialogue_streak + 1
  · simp [h60]
  · by_cases h40 : 40 ≤ st.dialogue_streak + 1
    · simp [h60, h40]
    · simp only [h60, h40, if_false]
      split <;> rfl

/-- The dialogue-handler action is a function of the incremented streak
alone: START from 60, B from 40, A below. -/
theorem dialogue_action_eq (sc : String) (st : Deprec.DlgState) :
    ((Deprec.dialogue_decide sc st).1).1 =
      if 60 ≤ st.dialogue_streak + 1 then "START"
      else if 40 ≤ st.dialogue_streak + 1 then "B" else "A" := by
  unfold Deprec.dialogue_decide
  by_cases h60 : 60 ≤ st.dialogue_streak + 1
  · simp [h60]
  · by_cases h40 : 40 ≤ st.dialogue_streak + 1
    · simp [h60, h40]
    · simp only [h60, h40, if_false]
      split <;> rfl

/-- After `n` consecutive DIALOGUE steps the streak counter has grown by
`n`. -/
theorem dialogueRun_streak (n : Nat) (st : Deprec.DlgState) :
    (Deprec.dialogueRun n st).dialogue_streak = st.dialogue_streak + n := by
  induction n generalizing st with
  | zero => rfl
  | succ m ih =>
    show (Deprec.dialogueRun m
      (Deprec.dialogue_decide "DIALOGUE" st).2).dialogue_streak = _
    rw [ih, dialogue_streak_step]
    omega

/-- C5: under a sustained run of consecutive DIALOGUE classifications
starting from a reset streak counter, the action returned at the
(k+1)-st step is A while the streak is below 40, B once it reaches
40 (= T1), and START once it reaches 60 (= T2 > T1) — deterministically
at those thresholds. -/
theorem C5_dialogue_escalation (st0 : Deprec.DlgState) (k : Nat)
    (h : st0.dialogue_streak = 0) :
    ((Deprec.dialogue_decide "DIALOGUE" (Deprec.dialogueRun k st0)).1).1 =
      if 60 ≤ k + 1 then "START" else if 40 ≤ k + 1 then "B" else "A" := by
  rw [dialogue_action_eq, dialogueRun_streak, h]
  simp

/-- C5, witness: the 60th consecutive dialogue step returns START. -/
theorem C5_dialogue_escalation_witness :
    ((Deprec.dialogue_decide "DIALOGUE"
      (Deprec.dialogueRun 59 ⟨0, none, []⟩)).1).1 = "START" := by
  have h := C5_dialogue_escalation ⟨0, none, []⟩ 59 rfl
  simpa using h

/-- C7: the scene classifier realizes exactly the claimed cascade — when
any explicit structured scene flag is set it returns by the strict
priority title > battle > dialogue > menu > cutscene with no further
signal checked; with no flag set, map-name or player-coordinate evidence
classifies MAP; with neither, UNKNOWN (escalated to the oracle by the
caller). -/
theorem C7_scene_priority (o : Percep.Obs) :
    (Percep._infer_scene_from_state o).scene_type = Percep.claimSceneType o := by
  unfold Percep._infer_scene_from_state Percep.claimSceneType
  (repeat' split) <;> simp_all

/-- C9, failing run: with the `littleroot_town_explore` goal active (its
entry as in `DEFAULT_EMERALD_LT_PLAN`), `update_goal_status` raises a
`TypeError` for any observation — line 643 evaluates
`("littleroot_town", "outside_littleroot", "littleroot") in loc` with
`loc` a `str`, which Python rejects — contradicting the claim that the
call always returns normally. -/
theorem C9_littleroot_branch_raises :
    OAI.update_goal_status
      ⟨none,
        [⟨"littleroot_town_explore",
          "Find Professor Birch's lab which is next door to your house.",
          "pending", ["birch's lab", "go visit prof. birch"]⟩],
        none, none, none, none, false, [], [], none, none⟩
      (.dict ⟨some "MAP", some "", none, ""⟩) =
    .error "TypeError: in <string> requires string as left operand, not tuple" := rfl

/-- C6, failing run: two successive `decide` calls whose contexts hash
equal.  The claim says the second call short-circuits on the cached
result with no new oracle call; in fact `context_cache` is only ever read
(openai/planning.py line 312) and never written, so it stays empty and
both calls perform one oracle call each. -/
theorem C6_cache_never_populated :
    OAI._hash_context c6_obs c6_r1.mem = OAI._hash_context c6_obs c6_mem ∧
    c6_r1.oracle_calls = 1 ∧ c6_r2.oracle_calls = 1 ∧
    c6_r1.pm.context_cache = [] ∧ c6_r2.pm.context_cache = [] ∧
    c6_r2.decision = c6_r1.decision := by
  exact ⟨rfl, rfl, rfl, rfl, rfl, rfl⟩

/-- C1: in the map-navigation validation of `decide`, an oracle-proposed
directional action that is not in the computed walkable set is never
returned unmodified when the walkable set is non-empty — the hard
`go_upstairs` override, the soft target-direction override, and the
final walkability check can only yield a different action (the first
walkable direction, UP, or the recommended direction). -/
theorem C1_blocked_direction_never_returned (action : String)
    (walkable : List String) (goal_id : Option String) (is_nav : Bool)
    (rdir : Option String) (restrict : Bool)
    (hdir : (["UP", "DOWN", "LEFT", "RIGHT"] : List String).contains action = true)
    (hnw : walkable.contains action = false)
    (hne : walkable ≠ []) :
    (Deprec.decide_validate action walkable goal_id is_nav rdir restrict).1 ≠
      action := by
  obtain ⟨w, t, rfl⟩ : ∃ w t, walkable = w :: t := by
    cases walkable with
    | nil => exact absurd rfl hne
    | cons w t => exact ⟨w, t, rfl⟩
  have hmem : ¬ action ∈ w :: t := by simpa using hnw
  have hwne : w ≠ action := fun h => hmem (h ▸ List.mem_cons_self w t)
  have hdmem : action = "UP" ∨ action = "DOWN" ∨ action = "LEFT" ∨
      action = "RIGHT" := by
    simpa using hdir
  unfold Deprec.decide_validate
  (repeat' split) <;> simp_all
  all_goals (rcases hdmem with rfl | rfl | rfl | rfl <;> (repeat' split) <;> simp_all)

/-- C1, witness: a blocked DOWN with walkable set [UP] is not returned. -/
theorem C1_blocked_direction_never_returned_witness :
    (Deprec.decide_validate "DOWN" ["UP"] none false none false).1 ≠ "DOWN" := by
  exact C1_blocked_direction_never_returned "DOWN" ["UP"] none false none false
    (by decide) (by decide) (by decide)

/-- `planStep` holds reflexively: leaving the plan unchanged is a legal
status step. -/
theorem planStep_refl (p : List Deprec.Goal) : Deprec.planStep p p :=
  ⟨rfl, fun _ g h => Or.inl h⟩

/-- Marking one entry completed is a legal status step. -/
theorem setCompletedAt_planStep (p : List Deprec.Goal) (i : Nat) :
    Deprec.planStep p (Deprec.setCompletedAt p i) := by
  induction p generalizing i with
  | nil => exact ⟨rfl, fun k g h => by cases k <;> simp_all⟩
  | cons a t ih =>
    cases i with
    | zero =>
      refine ⟨by simp [Deprec.setCompletedAt], fun k g h => ?_⟩
      cases k with
      | zero => simp_all [Deprec.setCompletedAt]
      | succ m => simp_all [Deprec.setCompletedAt]
    | succ j =>
      obtain ⟨hlen, hstep⟩ := ih j
      refine ⟨by simp [Deprec.setCompletedAt, hlen], fun k g h => ?_⟩
      cases k with
      | zero => simp_all [Deprec.setCompletedAt]
      | succ m =>
        simp only [Deprec.setCompletedAt, List.get?_cons_succ] at h ⊢
        exact hstep m g h

/-- `get_active_goal` never changes the goal list. -/
theorem get_active_goal_plan (s : Deprec.MemState) :
    (Deprec.get_active_goal s).2.long_term_plan = s.long_term_plan := by
  unfold Deprec.get_active_goal
  (repeat' split) <;> rfl

/-- `complete_current_goal` performs a legal status step on the plan. -/
theorem complete_current_goal_planStep (s : Deprec.MemState) (y : String) :
    Deprec.planStep s.long_term_plan
      (Deprec.complete_current_goal s y).long_term_plan := by
  have hp := get_active_goal_plan s
  unfold Deprec.complete_current_goal
  rcases hga : Deprec.get_active_goal s with ⟨c, s1⟩
  rw [hga] at hp
  cases c with
  | none => rw [← hp]; exact planStep_refl _
  | some c =>
    by_cases hid : (c.id == y) = true
    · simp only [hid, if_true]
      cases hidx : Deprec.findIdxP (fun g => g.id == y) s1.long_term_plan with
      | none => rw [← hp]; exact planStep_refl _
      | some i =>
        simp only []
        rw [← hp]
        exact setCompletedAt_planStep s1.long_term_plan i
    · simp only [hid, if_false, Bool.false_eq_true]
      rw [← hp]; exact planStep_refl _

/-- A legal status step is preserved under an if-then-else of states. -/
theorem planStep_ite (P : List Deprec.Goal) (c : Prop) [Decidable c]
    (a b : Deprec.MemState)
    (ha : Deprec.planStep P a.long_term_plan)
    (hb : Deprec.planStep P b.long_term_plan) :
    Deprec.planStep P (if c then a else b).long_term_plan := by
  by_cases h : c
  · rwa [if_pos h]
  · rwa [if_neg h]

/-- `update_goal_status` performs a legal status step on the plan (it
only ever completes goals via `complete_current_goal`). -/
theorem update_goal_status_planStep (s : Deprec.MemState) (o : Deprec.GoalObs) :
    Deprec.planStep s.long_term_plan
      (Deprec.update_goal_status s o).long_term_plan := by
  have hp := get_active_goal_plan s
  unfold Deprec.update_goal_status
  split
  · rename_i s1 heq
    rw [heq] at hp
    rw [← hp]; exact planStep_refl _
  · rename_i c1 s1 heq
    rw [heq] at hp
    have hA : Deprec.planStep s.long_term_plan s1.long_term_plan := by
      rw [← hp]; exact planStep_refl _
    have hB : ∀ gid, Deprec.planStep s.long_term_plan
        (Deprec.complete_current_goal s1 gid).long_term_plan := by
      intro gid
      have h2 := complete_current_goal_planStep s1 gid
      rwa [hp] at h2
    repeat' first
      | exact hA
      | exact hB _
      | apply planStep_ite

/-- A successful `find?` on a dropped suffix locates an element at a
strictly later absolute index. -/
theorem find?_drop_get? (l : List Deprec.Goal) (m : Nat)
    (p : Deprec.Goal → Bool) (a : Deprec.Goal)
    (h : (l.drop m).find? p = some a) :
    ∃ k, l.get? (m + k) = some a ∧ p a = true := by
  have hpa : p a = true := List.find?_some h
  have hmem : a ∈ l.drop m := List.mem_of_find?_eq_some h
  obtain ⟨n, hn⟩ := List.mem_iff_get?.mp hmem
  exact ⟨n, by rw [← List.get?_drop]; exact hn, hpa⟩

/-- When a completion actually fires (the guard passes and the goal id
is found at index `i`), the new current goal is `none` or a pending goal
at a strictly later index. -/
theorem complete_pointer (s : Deprec.MemState) (c : Deprec.Goal) (y : String)
    (i : Nat) (hc : s.current_goal = some c) (hid : c.id = y)
    (hidx : Deprec.findIdxP (fun g => g.id == y) s.long_term_plan = some i) :
    (Deprec.complete_current_goal s y).current_goal = none ∨
    ∃ j g', i < j ∧
      (Deprec.complete_current_goal s y).long_term_plan.get? j = some g' ∧
      g'.status = "pending" ∧
      (Deprec.complete_current_goal s y).current_goal = some g' := by
  have hguard : (c.id == y) = true := by simp [hid]
  unfold Deprec.complete_current_goal Deprec.get_active_goal
  rw [hc]
  simp only [hguard, if_true, hidx]
  cases hnext : ((Deprec.setCompletedAt s.long_term_plan i).drop (i + 1)).find?
      (fun g => g.status == "pending") with
  | none => left; simp [hnext]
  | some g' =>
    right
    obtain ⟨k, hget, hp⟩ := find?_drop_get? _ (i + 1) _ _ hnext
    refine ⟨i + 1 + k, g', by omega, ?_, by simpa using hp, ?_⟩
    · simpa [hnext] using hget
    · simp [hnext]

/-- C10: goal statuses are monotone and completion advances the pointer.
(i) `get_active_goal` never touches the plan; (ii) `complete_current_goal`
and (iii) `update_goal_status` change each plan entry at most by setting
its status to "completed" (so a completed goal stays completed forever
and no status ever moves back); (iv) when `complete_current_goal`
actually completes the goal at index `i` (the active goal's id matches
and is found there), the new current goal is either a pending goal at a
strictly later index or null. -/
theorem C10_goal_status_monotone :
    (∀ s : Deprec.MemState,
      (Deprec.get_active_goal s).2.long_term_plan = s.long_term_plan) ∧
    (∀ (s : Deprec.MemState) (y : String),
      Deprec.planStep s.long_term_plan
        (Deprec.complete_current_goal s y).long_term_plan) ∧
    (∀ (s : Deprec.MemState) (o : Deprec.GoalObs),
      Deprec.planStep s.long_term_plan
        (Deprec.update_goal_status s o).long_term_plan) ∧
    (∀ (s : Deprec.MemState) (c : Deprec.Goal) (y : String) (i : Nat),
      s.current_goal = some c → c.id = y →
      Deprec.findIdxP (fun g => g.id == y) s.long_term_plan = some i →
      (Deprec.complete_current_goal s y).current_goal = none ∨
      ∃ j g', i < j ∧
        (Deprec.complete_current_goal s y).long_term_plan.get? j = some g' ∧
        g'.status = "pending" ∧
        (Deprec.complete_current_goal s y).current_goal = some g') :=
  ⟨get_active_goal_plan, complete_current_goal_planStep,
    update_goal_status_planStep, complete_pointer⟩

/-- C10, witness: completing the active first goal of a two-goal plan
leaves the pointer on the strictly later pending goal (or null). -/
theorem C10_goal_status_monotone_witness :
    (Deprec.complete_current_goal
      ⟨none, [⟨"x", "goal x", "pending", [], false⟩,
        ⟨"z", "goal z", "pending", [], false⟩],
        some ⟨"x", "goal x", "pending", [], false⟩, none,
        false, false, [], none, []⟩ "x").current_goal = none ∨
    ∃ j g', 0 < j ∧
      (Deprec.complete_current_goal
        ⟨none, [⟨"x", "goal x", "pending", [], false⟩,
          ⟨"z", "goal z", "pending", [], false⟩],
          some ⟨"x", "goal x", "pending", [], false⟩, none,
          false, false, [], none, []⟩ "x").long_term_plan.get? j = some g' ∧
      g'.status = "pending" ∧
      (Deprec.complete_current_goal
        ⟨none, [⟨"x", "goal x", "pending", [], false⟩,
          ⟨"z", "goal z", "pending", [], false⟩],
          some ⟨"x", "goal x", "pending", [], false⟩, none,
          false, false, [], none, []⟩ "x").current_goal = some g' := by
  exact C10_goal_status_monotone.2.2.2 _ ⟨"x", "goal x", "pending", [], false⟩
    "x" 0 rfl rfl rfl
